import Mathlib

/-!
Shallow embedding of the conversation orchestrator of the Nano Banana Agent
(src/App.tsx): the `handleSendMessage` submission handler, the history
windowing and part mapping it performs, and `exportChatHistory`.

JavaScript strings are modelled as Lean `String`, `null`/`undefined`-able
strings as `Option String`, and JS truthiness of a string value by
`strTruthy` (absent or empty is falsy).  The asynchronous handler is
modelled as a pure function that, given oracles for the external AI
capabilities, returns the ordered list of state snapshots produced by its
state mutations (its trace) together with the list of capability calls it
performed.  A capability that rejects is an oracle returning `Except.error`.
-/

/-- Modelled from the spec: the `Role` enum of `types.ts` (not under `src/`),
    roles `user` and `agent`. -/
inductive Role where
  | user : Role
  | agent : Role
deriving DecidableEq, Repr

/-- A content part of a turn: a JS object that may carry a `text` field
    and/or an `image` field (a data-URI).  The code only ever builds parts
    with exactly one of the two present. -/
structure MsgPart where
  text : Option String
  image : Option String
deriving DecidableEq, Repr

/-- The part { text: t }. -/
def MsgPart.textPart (t : String) : MsgPart := { text := some t, image := none }

/-- The part { image: i }. -/
def MsgPart.imagePart (i : String) : MsgPart := { text := none, image := some i }

/-- Modelled from the spec: the `Message` record of `types.ts` (not under
    `src/`): id, role, ordered content parts, timestamp (abstracted to a
    `Nat`), and the optional `isPending` flag (absent modelled as `false`). -/
structure Message where
  id : String
  role : Role
  content : List MsgPart
  timestamp : Nat
  isPending : Bool
deriving DecidableEq, Repr

/-- JS truthiness of a `string | null | undefined` value: `null`,
    `undefined` and `""` are falsy. -/
def strTruthy : Option String → Bool
  | some t => !(t == "")
  | none => false

/-- JS `String.prototype.trim`: strips leading and trailing whitespace. -/
def jsTrim (s : String) : String :=
  String.mk (((s.data.dropWhile Char.isWhitespace).reverse.dropWhile
    Char.isWhitespace).reverse)

/-- An `inlineData` payload sent in a history part.  `data` is an `Option`
    because `split(',')[1]` is `undefined` in JS when the URI has no comma. -/
structure InlineData where
  data : Option String
  mimeType : String
deriving DecidableEq, Repr

/-- A part of a history entry: `{text}` or `{inlineData}`. -/
structure HistPart where
  text : Option String
  inlineData : Option InlineData
deriving DecidableEq, Repr

/-- A history entry { role, parts } whose role is "user" or "model". -/
structure HistoryEntry where
  role : String
  parts : List HistPart
deriving DecidableEq, Repr

/-- JS `String.prototype.split` with a one-character separator, on the
    character list of the string: splits at every occurrence of `sep`,
    keeping empty fields; the result is always non-empty. -/
def jsSplitChars (sep : Char) : List Char → List (List Char)
  | [] => [[]]
  | c :: rest =>
    if c = sep then [] :: jsSplitChars sep rest
    else
      match jsSplitChars sep rest with
      | [] => [[c]]
      | h :: t => (c :: h) :: t

/-- The per-part mapping of the history construction in `handleSendMessage`
    (src/App.tsx lines 162-170):
    `if (c.text) return { text: c.text };`
    `if (c.image) { const data = c.image.split(',')[1]; const mimeType =
     c.image.split(',')[0].split(':')[1].split(';')[0]; return { inlineData:
     { data, mimeType } }; }`
    `return { text: '' };`
    Returns `none` when the JS code would throw a `TypeError`
    (`split(':')[1]` being `undefined` when the URI has no colon). -/
def mapPart (c : MsgPart) : Option HistPart :=
  if strTruthy c.text then some { text := c.text, inlineData := none }
  else if strTruthy c.image then
    let img := c.image.getD ""
    let pieces := jsSplitChars ',' img.data
    let data : Option String := (pieces.get? 1).map String.mk
    match (jsSplitChars ':' (pieces.headD [])).get? 1 with
    | none => none
    | some rest =>
      let mimeType := String.mk ((jsSplitChars ';' rest).headD [])
      some { text := none, inlineData := some { data := data, mimeType := mimeType } }
  else some { text := some "", inlineData := none }

/-- A JS `Array.prototype.map` whose callback may throw: `none` models the
    exception propagating out of the whole `map`. -/
def mapOption (f : α → Option β) : List α → Option (List β)
  | [] => some []
  | a :: l =>
    match f a, mapOption f l with
    | some b, some l' => some (b :: l')
    | _, _ => none

/-- One turn mapped to its history entry:
    role "user" for a user turn and "model" otherwise, with mapped parts. -/
def mapMessage (m : Message) : Option HistoryEntry :=
  match mapOption mapPart m.content with
  | none => none
  | some parts => some { role := if m.role = Role.user then "user" else "model", parts := parts }

/-- The bounded history, `messages.slice(-6).map(...)`, built from the turn
    list captured by the closure of the handler (the list as it was before the
    in-flight pair was appended). -/
def buildHistory (msgs : List Message) : Option (List HistoryEntry) :=
  mapOption mapMessage (msgs.drop (msgs.length - 6))

/-- Modelled from the spec: the external AI client capabilities
    (`services/geminiService.ts`, not under `src/`): `generateTextResponse`
    (prompt, optional history, optional attached image), `generateImage`,
    and the synchronous pure predicate `shouldGenerateImage`.  Rejection of
    an asynchronous capability is an `Except.error` result. -/
structure Gemini where
  generateTextResponse : String → Option (List HistoryEntry) → Option String → Except String String
  generateImage : String → Except String String
  shouldGenerateImage : String → Bool

/-- One recorded capability invocation. -/
inductive GeminiCall where
  | genText (prompt : String) (history : Option (List HistoryEntry)) (image : Option String) : GeminiCall
  | genImage (prompt : String) : GeminiCall
  | shouldGen (text : String) : GeminiCall
deriving DecidableEq, Repr

/-- The orchestrator state: the React state variables of `App`. -/
structure AppState where
  messages : List Message
  inputValue : String
  isTyping : Bool
  isImageMode : Bool
  isListening : Bool
  pendingImage : Option String
deriving DecidableEq, Repr

/-- The result of one invocation of the submission handler: the ordered
    state snapshots after each state mutation (empty when the guard rejects
    the submission), and the capability calls performed, in order. -/
structure RunResult where
  trace : List AppState
  calls : List GeminiCall
deriving DecidableEq, Repr

/-- The state after the handler returns: the last snapshot of the trace, or
    the initial state when no mutation happened. -/
def finalState (s : AppState) (r : RunResult) : AppState :=
  r.trace.getLast?.getD s

/-- The precondition guard (src/App.tsx line 100):
    `if ((!inputValue.trim() && !pendingImage) || isTyping) return;` -/
def guardRejects (s : AppState) : Bool :=
  (jsTrim s.inputValue == "" && !strTruthy s.pendingImage) || s.isTyping

/-- Line 140: `!currentPendingImage && (forceImageGen || gemini.shouldGenerateImage(userText))`. -/
def isImageRequest (g : Gemini) (currentPendingImage : Option String)
    (forceImageGen : Bool) (userText : String) : Bool :=
  !strTruthy currentPendingImage && (forceImageGen || g.shouldGenerateImage userText)

/-- The image-path decision of a submission, applied to the values the
    handler captures from the state. -/
def submissionTakesImagePath (g : Gemini) (s : AppState) : Bool :=
  isImageRequest g s.pendingImage s.isImageMode (jsTrim s.inputValue)

/-- The templated acknowledgement used when `forceImageGen` is set
    (line 144). -/
def forcedAck (userText : String) : String :=
  "Initiating Banana Vision... Crafting high-fidelity visualization for: \"" ++ userText ++ "\""

/-- The confirmation prompt sent when the heuristic (not the toggle)
    triggered the image path (line 145). -/
def ackPrompt (userText : String) : String :=
  "The user wants to visualize: \"" ++ userText ++ "\". Confirm you are generating it."

/-- The fixed user-facing failure message installed by the `catch` block. -/
def failureMessage : String :=
  "The generation failed. Please refine your prompt and try again."

/-- The default prompt used when the trimmed text is empty (line 173:
    a falsy `userText` picks the default). -/
def defaultPrompt : String := "What\x27s in this image?"

/-- JS `x || undefined` on a nullable string: a falsy value becomes
    `undefined`. -/
def jsOr (img : Option String) : Option String :=
  if strTruthy img then img else none

/-- The in-place update of one turn: maps the list, replacing content and
    isPending of the message whose id equals targetId. -/
def updateMsg (msgs : List Message) (targetId : String) (content : List MsgPart)
    (pending : Bool) : List Message :=
  msgs.map fun m => if m.id = targetId then { m with content := content, isPending := pending } else m

/-- The `catch` block (lines 180-186): replace the content of the agent turn with
    the failure message and finalize it. -/
def applyCatch (s : AppState) (botId : String) : AppState :=
  { s with messages := updateMsg s.messages botId [MsgPart.textPart failureMessage] false }

/-- One `setMessages` mutation of the content and pending flag of the agent turn. -/
def setBotContent (s : AppState) (botId : String) (content : List MsgPart)
    (pending : Bool) : AppState :=
  { s with messages := updateMsg s.messages botId content pending }

/-- The content of the user turn (lines 114-116): the trimmed text part if the
    text is truthy, then the image part if the attachment is truthy. -/
def userContentOf (userText : String) (img : Option String) : List MsgPart :=
  (if userText = "" then [] else [MsgPart.textPart userText])
    ++ (if strTruthy img then [MsgPart.imagePart (img.getD "")] else [])

/-- The rest of the image path once the acknowledgement text is known
    (lines 147-158): show the acknowledgement (still pending), await
    `generateImage`, then finalize with text plus image, or fall into the
    `catch` block on rejection. -/
def afterAck (g : Gemini) (botId userText confirmationText : String)
    (s4 : AppState) (calls : List GeminiCall) :
    List AppState × List GeminiCall × AppState :=
  let s5 := setBotContent s4 botId [MsgPart.textPart confirmationText] true
  match g.generateImage userText with
  | Except.error _ =>
    let sErr := applyCatch s5 botId
    ([s5, sErr], calls ++ [GeminiCall.genImage userText], sErr)
  | Except.ok imageUrl =>
    let s6 := setBotContent s5 botId
      [MsgPart.textPart confirmationText, MsgPart.imagePart imageUrl] false
    ([s5, s6], calls ++ [GeminiCall.genImage userText], s6)

/-- The `try` block of `handleSendMessage` (lines 139-186, `catch`
    included): decides the path, performs the capability calls, and returns
    the extra state snapshots, the recorded calls, and the state the block
    ends in.  `priorMessages` is the turn list captured by the closure
    (used by the history), `s4` the state after both turns were appended. -/
def tryExchange (g : Gemini) (botId userText : String)
    (currentPendingImage : Option String) (forceImageGen : Bool)
    (priorMessages : List Message) (s4 : AppState) :
    List AppState × List GeminiCall × AppState :=
  let req := isImageRequest g currentPendingImage forceImageGen userText
  let calls0 : List GeminiCall :=
    if !strTruthy currentPendingImage && !forceImageGen
    then [GeminiCall.shouldGen userText] else []
  if req then
    if forceImageGen then
      afterAck g botId userText (forcedAck userText) s4 calls0
    else
      match g.generateTextResponse (ackPrompt userText) none none with
      | Except.error _ =>
        let sErr := applyCatch s4 botId
        ([sErr], calls0 ++ [GeminiCall.genText (ackPrompt userText) none none], sErr)
      | Except.ok confirmationText =>
        afterAck g botId userText confirmationText s4
          (calls0 ++ [GeminiCall.genText (ackPrompt userText) none none])
  else
    match buildHistory priorMessages with
    | none =>
      let sErr := applyCatch s4 botId
      ([sErr], calls0, sErr)
    | some history =>
      let prompt := if userText = "" then defaultPrompt else userText
      let imgArg := jsOr currentPendingImage
      match g.generateTextResponse prompt (some history) imgArg with
      | Except.error _ =>
        let sErr := applyCatch s4 botId
        ([sErr], calls0 ++ [GeminiCall.genText prompt (some history) imgArg], sErr)
      | Except.ok textResponse =>
        let s5 := setBotContent s4 botId [MsgPart.textPart textResponse] false
        ([s5], calls0 ++ [GeminiCall.genText prompt (some history) imgArg], s5)

/-- The state after the three input-reset mutations (lines 106-108):
    setInputValue, setPendingImage and setIsImageMode clear the input text,
    the attachment and the mode flag. -/
def resetState (s : AppState) : AppState :=
  { s with inputValue := "", pendingImage := none, isImageMode := false }

/-- The new user turn (lines 118-123). -/
def userMessageOf (userId : String) (ts : Nat) (s : AppState) : Message :=
  { id := userId, role := Role.user,
    content := userContentOf (jsTrim s.inputValue) s.pendingImage,
    timestamp := ts, isPending := false }

/-- The new pending agent turn (lines 129-135). -/
def botMessageOf (botId : String) (ts : Nat) : Message :=
  { id := botId, role := Role.agent, content := [], timestamp := ts,
    isPending := true }

/-- The state after appending the user turn (line 125). -/
def stateAfterUser (userId : String) (ts : Nat) (s : AppState) : AppState :=
  { resetState s with
    messages := (resetState s).messages ++ [userMessageOf userId ts s] }

/-- The state after `setIsTyping(true)` (line 126). -/
def stateTyping (userId : String) (ts : Nat) (s : AppState) : AppState :=
  { stateAfterUser userId ts s with isTyping := true }

/-- The state after appending the pending agent turn (line 137). -/
def stateAfterBot (userId botId : String) (ts : Nat) (s : AppState) : AppState :=
  { stateTyping userId ts s with
    messages := (stateTyping userId ts s).messages ++ [botMessageOf botId ts] }

/-- The whole submission handler `handleSendMessage` (src/App.tsx lines
    99-190).  `userId` and `botId` are the ids produced for the two new
    turns, `ts` their creation timestamp.  Returns the trace of state
    snapshots and the capability calls; a rejected submission produces
    neither.  The `finally` block (`setIsTyping(false)`) is the last
    mutation of every accepted run. -/
def handleSendMessage (g : Gemini) (userId botId : String) (ts : Nat)
    (s : AppState) : RunResult :=
  if guardRejects s then { trace := [], calls := [] }
  else
    let res := tryExchange g botId (jsTrim s.inputValue) s.pendingImage
      s.isImageMode s.messages (stateAfterBot userId botId ts s)
    { trace := [resetState s, stateAfterUser userId ts s,
        stateTyping userId ts s, stateAfterBot userId botId ts s]
        ++ res.1 ++ [{ res.2.2 with isTyping := false }],
      calls := res.2.1 }

/-- The APP_NAME constant from `constants.tsx`. -/
def APP_NAME : String := "Nano Banana Agent"

/-- The transcript header (lines 219-221); `dateStr` abstracts
    `new Date().toLocaleString()`. -/
def exportHeader (dateStr : String) : String :=
  APP_NAME ++ " - Conversation Export\n" ++ "Date: " ++ dateStr ++ "\n"
    ++ "-------------------------------------------\n\n"

/-- One part rendered into the transcript (lines 229-230): its text when
    truthy, an image placeholder when an image is present. -/
def renderPart (p : MsgPart) : String :=
  (if strTruthy p.text then p.text.getD "" ++ "\n" else "")
    ++ (if strTruthy p.image then "[Generated Image Attached]\n" else "")

/-- The transcript block of one turn (lines 223-233); `fmtTime` abstracts
    `toLocaleTimeString`. -/
def renderMessage (fmtTime : Nat → String) (m : Message) : String :=
  "[" ++ fmtTime m.timestamp ++ "] "
    ++ (if m.role = Role.user then "USER" else "NANO BANANA") ++ ":\n"
    ++ String.join (m.content.map renderPart) ++ "\n"

/-- The export function `exportChatHistory` (lines 213-244): `none` models the empty-list case
    (alert shown, no file created); `some t` the downloaded transcript. -/
def exportChatHistory (dateStr : String) (fmtTime : Nat → String)
    (msgs : List Message) : Option String :=
  if msgs.length = 0 then none
  else some (exportHeader dateStr ++ String.join (msgs.map (renderMessage fmtTime)))

/-- A stub capability set used to instantiate theorems on concrete runs. -/
def geminiStub (heur : Bool) (textRes : Except String String)
    (imgRes : Except String String) : Gemini :=
  { generateTextResponse := fun _ _ _ => textRes
    generateImage := fun _ => imgRes
    shouldGenerateImage := fun _ => heur }

/-- A one-text-part turn used to instantiate the windowing theorem. -/
def wmsg (i : Nat) (r : Role) (t : String) : Message :=
  { id := toString i, role := r, content := [MsgPart.textPart t],
    timestamp := i, isPending := false }

/-- The history entry a `wmsg` maps to. -/
def wentry (r : String) (t : String) : HistoryEntry :=
  { role := r, parts := [{ text := some t, inlineData := none }] }

/-! ### Helper lemmas -/

theorem jsSplitChars_of_not_mem {sep : Char} {l : List Char} (h : sep ∉ l) :
    jsSplitChars sep l = [l] := by
  induction l with
  | nil => rfl
  | cons c rest ih =>
    simp only [List.mem_cons, not_or] at h
    rw [jsSplitChars, if_neg (fun hc => h.1 hc.symm), ih h.2]

theorem jsSplitChars_append {sep : Char} {a : List Char} (b : List Char)
    (h : sep ∉ a) : jsSplitChars sep (a ++ sep :: b) = a :: jsSplitChars sep b := by
  induction a with
  | nil => simp [jsSplitChars]
  | cons c rest ih =>
    simp only [List.mem_cons, not_or] at h
    rw [List.cons_append, jsSplitChars, if_neg (fun hc => h.1 hc.symm), ih h.2]

theorem mapOption_length {f : α → Option β} :
    ∀ {l : List α} {l' : List β}, mapOption f l = some l' → l'.length = l.length := by
  intro l
  induction l with
  | nil => intro l' h; simp [mapOption] at h; simp [← h]
  | cons a rest ih =>
    intro l' h
    simp only [mapOption] at h
    cases hf : f a with
    | none => rw [hf] at h; simp at h
    | some b =>
      rw [hf] at h
      cases hr : mapOption f rest with
      | none => rw [hr] at h; simp at h
      | some r => rw [hr] at h; simp at h; rw [← h]; simp [ih hr]

theorem mapOption_get {f : α → Option β} :
    ∀ {l : List α} {l' : List β}, mapOption f l = some l' →
    ∀ (i : Nat) (h1 : i < l.length) (h2 : i < l'.length),
      f (l.get ⟨i, h1⟩) = some (l'.get ⟨i, h2⟩) := by
  intro l
  induction l with
  | nil => intro l' h i h1; simp at h1
  | cons a rest ih =>
    intro l' h i h1 h2
    simp only [mapOption] at h
    cases hf : f a with
    | none => rw [hf] at h; simp at h
    | some b =>
      rw [hf] at h
      cases hr : mapOption f rest with
      | none => rw [hr] at h; simp at h
      | some r =>
        rw [hr] at h; simp at h
        subst h
        cases i with
        | zero => simpa using hf
        | succ j =>
          simp only [List.get_cons_succ]
          exact ih hr j (Nat.lt_of_succ_lt_succ h1) (Nat.lt_of_succ_lt_succ h2)

theorem updateMsg_of_not_mem {msgs : List Message} {tid : String}
    (c : List MsgPart) (p : Bool) (h : tid ∉ msgs.map Message.id) :
    updateMsg msgs tid c p = msgs := by
  induction msgs with
  | nil => rfl
  | cons m rest ih =>
    simp only [List.map_cons, List.mem_cons, not_or] at h
    simp only [updateMsg, List.map_cons]
    rw [if_neg (fun hc => h.1 hc.symm)]
    have := ih h.2
    simp only [updateMsg] at this
    rw [this]

theorem updateMsg_append (l₁ l₂ : List Message) (tid : String)
    (c : List MsgPart) (p : Bool) :
    updateMsg (l₁ ++ l₂) tid c p = updateMsg l₁ tid c p ++ updateMsg l₂ tid c p := by
  simp [updateMsg]

theorem updateMsg_pair {msgs : List Message} {u b : Message} {bid : String}
    (c : List MsgPart) (p : Bool) (hbid : bid ∉ msgs.map Message.id)
    (hu : u.id ≠ bid) (hb : b.id = bid) :
    updateMsg (msgs ++ [u, b]) bid c p
      = msgs ++ [u, { b with content := c, isPending := p }] := by
  rw [updateMsg_append, updateMsg_of_not_mem c p hbid]
  simp [updateMsg, hu, hb]

/-! ### Claim theorems -/

/-- C4: A submission whose trimmed text is empty and which has no attached
    image is rejected as a no-op: the handler produces no state mutation
    (the turn list in particular is unchanged) and performs no capability
    call. -/
theorem c4_empty_submission_is_noop (g : Gemini) (userId botId : String)
    (ts : Nat) (s : AppState) (htext : jsTrim s.inputValue = "")
    (himg : s.pendingImage = none) :
    handleSendMessage g userId botId ts s = { trace := [], calls := [] } ∧
    finalState s (handleSendMessage g userId botId ts s) = s ∧
    (handleSendMessage g userId botId ts s).calls = [] := by
  have hg : guardRejects s = true := by
    simp [guardRejects, htext, himg, strTruthy]
  refine ⟨?_, ?_, ?_⟩ <;> simp [handleSendMessage, hg, finalState]

/-- C4 witness: a concrete whitespace-only submission with no attachment is
    a no-op. -/
theorem c4_witness :
    let s : AppState := { messages := [], inputValue := "  ",
                          isTyping := false, isImageMode := true,
                          isListening := false, pendingImage := none }
    jsTrim s.inputValue = "" ∧ s.pendingImage = none ∧
    (handleSendMessage (geminiStub true (Except.ok "t") (Except.ok "i")) "u" "b" 0 s
        = { trace := [], calls := [] } ∧
      finalState s (handleSendMessage (geminiStub true (Except.ok "t") (Except.ok "i")) "u" "b" 0 s) = s ∧
      (handleSendMessage (geminiStub true (Except.ok "t") (Except.ok "i")) "u" "b" 0 s).calls = []) :=
  ⟨by decide, rfl,
    c4_empty_submission_is_noop (geminiStub true (Except.ok "t") (Except.ok "i"))
      "u" "b" 0 _ (by decide) rfl⟩

/-- C5: A submission made while a previous exchange is still in flight
    (`isTyping = true`) is a no-op: no state mutation, no capability call,
    the turn list unchanged. -/
theorem c5_pending_submission_is_noop (g : Gemini) (userId botId : String)
    (ts : Nat) (s : AppState) (h : s.isTyping = true) :
    handleSendMessage g userId botId ts s = { trace := [], calls := [] } ∧
    finalState s (handleSendMessage g userId botId ts s) = s ∧
    (handleSendMessage g userId botId ts s).calls = [] := by
  have hg : guardRejects s = true := by simp [guardRejects, h]
  refine ⟨?_, ?_, ?_⟩ <;> simp [handleSendMessage, hg, finalState]

/-- C5 witness: a concrete submission during an in-flight exchange is a
    no-op. -/
theorem c5_witness :
    let s : AppState := { messages := [], inputValue := "hello",
                          isTyping := true, isImageMode := false,
                          isListening := false, pendingImage := none }
    s.isTyping = true ∧
    (handleSendMessage (geminiStub true (Except.ok "t") (Except.ok "i")) "u" "b" 0 s
        = { trace := [], calls := [] } ∧
      finalState s (handleSendMessage (geminiStub true (Except.ok "t") (Except.ok "i")) "u" "b" 0 s) = s ∧
      (handleSendMessage (geminiStub true (Except.ok "t") (Except.ok "i")) "u" "b" 0 s).calls = []) :=
  ⟨rfl,
    c5_pending_submission_is_noop (geminiStub true (Except.ok "t") (Except.ok "i"))
      "u" "b" 0 _ rfl⟩

/-- C1: For an accepted submission (whose attachment, when present, is a
    non-empty data-URI, as every `FileReader` result is), the
    image-generation path is taken iff no image is attached and
    (`forceImageMode` or the intent heuristic on the trimmed text holds);
    in particular an attached image forces the text path even when
    `forceImageMode` is set. -/
theorem c1_image_path_decision (g : Gemini) (s : AppState)
    (hacc : guardRejects s = false) (hwf : s.pendingImage ≠ some "") :
    (submissionTakesImagePath g s = true ↔
      (s.pendingImage = none ∧
        (s.isImageMode = true ∨ g.shouldGenerateImage (jsTrim s.inputValue) = true))) ∧
    (∀ u : String, s.pendingImage = some u → submissionTakesImagePath g s = false) := by
  constructor
  · cases himg : s.pendingImage with
    | none =>
      simp [submissionTakesImagePath, isImageRequest, himg, strTruthy]
    | some u =>
      have hu : u ≠ "" := fun h => hwf (h ▸ himg)
      simp [submissionTakesImagePath, isImageRequest, himg, strTruthy, hu]
  · intro u hu
    have hne : u ≠ "" := fun h => hwf (h ▸ hu)
    simp [submissionTakesImagePath, isImageRequest, hu, strTruthy, hne]

/-- C1 witness: with an attached image and `forceImageMode` on, the text
    path is taken; the iff holds at this concrete state. -/
theorem c1_witness :
    let s : AppState := { messages := [], inputValue := "draw a cat",
                          isTyping := false, isImageMode := true,
                          isListening := false,
                          pendingImage := some "data:image/png;base64,AA" }
    let g := geminiStub true (Except.ok "t") (Except.ok "i")
    guardRejects s = false ∧ s.pendingImage ≠ some "" ∧
    ((submissionTakesImagePath g s = true ↔
        (s.pendingImage = none ∧
          (s.isImageMode = true ∨ g.shouldGenerateImage (jsTrim s.inputValue) = true))) ∧
      (∀ u : String, s.pendingImage = some u → submissionTakesImagePath g s = false)) :=
  ⟨by decide, by decide,
    c1_image_path_decision (geminiStub true (Except.ok "t") (Except.ok "i")) _
      (by decide) (by decide)⟩

theorem handleSendMessage_accepted (g : Gemini) (userId botId : String)
    (ts : Nat) (s : AppState) (hacc : guardRejects s = false) :
    handleSendMessage g userId botId ts s =
      { trace := [resetState s, stateAfterUser userId ts s,
          stateTyping userId ts s, stateAfterBot userId botId ts s]
          ++ (tryExchange g botId (jsTrim s.inputValue) s.pendingImage
              s.isImageMode s.messages (stateAfterBot userId botId ts s)).1
          ++ [{ (tryExchange g botId (jsTrim s.inputValue) s.pendingImage
                s.isImageMode s.messages (stateAfterBot userId botId ts s)).2.2
                with isTyping := false }],
        calls := (tryExchange g botId (jsTrim s.inputValue) s.pendingImage
          s.isImageMode s.messages (stateAfterBot userId botId ts s)).2.1 } := by
  simp [handleSendMessage, hacc]

theorem finalState_accepted (g : Gemini) (userId botId : String)
    (ts : Nat) (s : AppState) (hacc : guardRejects s = false) :
    finalState s (handleSendMessage g userId botId ts s) =
      { (tryExchange g botId (jsTrim s.inputValue) s.pendingImage
          s.isImageMode s.messages (stateAfterBot userId botId ts s)).2.2
        with isTyping := false } := by
  rw [finalState, handleSendMessage_accepted g userId botId ts s hacc]
  dsimp only
  rw [List.getLast?_concat, Option.getD_some]

theorem tryExchange_frame (g : Gemini) (botId userText : String)
    (img : Option String) (force : Bool) (pm : List Message) (s4 : AppState) :
    (∀ st ∈ (tryExchange g botId userText img force pm s4).1,
      st.inputValue = s4.inputValue ∧ st.pendingImage = s4.pendingImage ∧
      st.isImageMode = s4.isImageMode ∧ st.isListening = s4.isListening ∧
      st.isTyping = s4.isTyping) ∧
    ((tryExchange g botId userText img force pm s4).2.2.inputValue = s4.inputValue ∧
      (tryExchange g botId userText img force pm s4).2.2.pendingImage = s4.pendingImage ∧
      (tryExchange g botId userText img force pm s4).2.2.isImageMode = s4.isImageMode ∧
      (tryExchange g botId userText img force pm s4).2.2.isListening = s4.isListening ∧
      (tryExchange g botId userText img force pm s4).2.2.isTyping = s4.isTyping) := by
  constructor
  · intro st hst
    unfold tryExchange afterAck at hst
    cases hreq : isImageRequest g img force userText <;>
      simp only [hreq, Bool.false_eq_true, if_false, if_true] at hst <;>
      repeat' split at hst
    all_goals simp only [List.mem_cons, List.mem_singleton, List.not_mem_nil,
      or_false] at hst
    all_goals first
      | (rcases hst with h | h <;> subst h <;> simp [setBotContent, applyCatch])
      | (subst hst; simp [setBotContent, applyCatch])
  · unfold tryExchange afterAck
    cases hreq : isImageRequest g img force userText <;>
      simp only [hreq, Bool.false_eq_true, if_false, if_true] <;>
      repeat' split
    all_goals simp [setBotContent, applyCatch]

/-- C10: On every accepted submission the input text, the pending image
    attachment and the image-mode flag are cleared by the very first state
    mutation — the head of the trace, before any capability result is
    observed — and that mutation changes nothing else (turn list, typing
    and listening flags are untouched by the reset); every later snapshot
    of the exchange still has them cleared, so the image-mode toggle can
    affect only the submission that consumed it. -/
theorem c10_inputs_cleared_immediately (g : Gemini) (userId botId : String)
    (ts : Nat) (s : AppState) (hacc : guardRejects s = false) :
    (handleSendMessage g userId botId ts s).trace.head? =
      some { s with inputValue := "", pendingImage := none, isImageMode := false } ∧
    ∀ st ∈ (handleSendMessage g userId botId ts s).trace,
      st.inputValue = "" ∧ st.pendingImage = none ∧ st.isImageMode = false := by
  rw [handleSendMessage_accepted g userId botId ts s hacc]
  constructor
  · rfl
  · intro st hst
    simp only [List.mem_append, List.mem_cons, List.mem_singleton,
      List.not_mem_nil, or_false] at hst
    have hframe := tryExchange_frame g botId (jsTrim s.inputValue) s.pendingImage
      s.isImageMode s.messages (stateAfterBot userId botId ts s)
    rcases hst with ((h | h | h | h) | h) | h
    · subst h; simp [resetState]
    · subst h; simp [stateAfterUser, resetState]
    · subst h; simp [stateTyping, stateAfterUser, resetState]
    · subst h; simp [stateAfterBot, stateTyping, stateAfterUser, resetState]
    · have := hframe.1 st h
      simp only [stateAfterBot, stateTyping, stateAfterUser, resetState] at this
      exact ⟨this.1, this.2.1, this.2.2.1⟩
    · subst h
      have := hframe.2
      simp only [stateAfterBot, stateTyping, stateAfterUser, resetState] at this
      exact ⟨this.1, this.2.1, this.2.2.1⟩

/-- C10 witness: a concrete accepted submission (image mode on) clears the
    input, attachment and mode in its first mutation and keeps them cleared. -/
theorem c10_witness :
    let s : AppState := { messages := [], inputValue := " a dog ",
                          isTyping := false, isImageMode := true,
                          isListening := true,
                          pendingImage := some "data:image/png;base64,AA" }
    let g := geminiStub false (Except.ok "t") (Except.ok "i")
    guardRejects s = false ∧
    ((handleSendMessage g "u" "b" 3 s).trace.head? =
        some { s with inputValue := "", pendingImage := none, isImageMode := false } ∧
      ∀ st ∈ (handleSendMessage g "u" "b" 3 s).trace,
        st.inputValue = "" ∧ st.pendingImage = none ∧ st.isImageMode = false) :=
  ⟨by decide,
    c10_inputs_cleared_immediately (geminiStub false (Except.ok "t") (Except.ok "i"))
      "u" "b" 3 _ (by decide)⟩

/-- C9: Export on an empty turn list produces no file (the `none` result
    models the alert-and-return path, which performs no file creation and
    leaves the turn list untouched); export on a non-empty list of N turns
    produces the transcript consisting of the header followed by exactly
    the N per-turn blocks joined in list (chronological) order, where each
    block carries the formatted timestamp and role label of the turn and renders
    each part as its text or the image placeholder. -/
theorem c9_export_transcript (dateStr : String) (fmtTime : Nat → String)
    (msgs : List Message) (hne : msgs ≠ []) :
    exportChatHistory dateStr fmtTime [] = none ∧
    exportChatHistory dateStr fmtTime msgs =
      some (exportHeader dateStr ++ String.join (msgs.map (renderMessage fmtTime))) ∧
    (msgs.map (renderMessage fmtTime)).length = msgs.length ∧
    (∀ m : Message, renderMessage fmtTime m =
      "[" ++ fmtTime m.timestamp ++ "] "
        ++ (if m.role = Role.user then "USER" else "NANO BANANA") ++ ":\n"
        ++ String.join (m.content.map renderPart) ++ "\n") ∧
    (∀ t : String, t ≠ "" → renderPart (MsgPart.textPart t) = t ++ "\n") ∧
    (∀ i : String, i ≠ "" →
      renderPart (MsgPart.imagePart i) = "[Generated Image Attached]\n") := by
  refine ⟨rfl, ?_, by simp, fun m => rfl, ?_, ?_⟩
  · have : msgs.length ≠ 0 := fun h => hne (List.length_eq_zero.mp h)
    simp [exportChatHistory, this]
  · intro t ht
    simp [renderPart, MsgPart.textPart, strTruthy, ht]
  · intro i hi
    simp [renderPart, MsgPart.imagePart, strTruthy, hi]

/-- C9 witness: exporting a concrete two-turn conversation yields the
    two-block transcript; exporting the empty list yields no file. -/
theorem c9_witness :
    let m1 : Message := { id := "1", role := Role.user,
                          content := [MsgPart.textPart "hi"], timestamp := 7,
                          isPending := false }
    let m2 : Message := { id := "2", role := Role.agent,
                          content := [MsgPart.imagePart "data:image/png;base64,AA"],
                          timestamp := 8, isPending := false }
    let f : Nat → String := fun n => if n = 7 then "07:00" else "08:00"
    [m1, m2] ≠ [] ∧
    (exportChatHistory "D" f [] = none ∧
      exportChatHistory "D" f [m1, m2] =
        some (exportHeader "D" ++ String.join ([m1, m2].map (renderMessage f))) ∧
      ([m1, m2].map (renderMessage f)).length = [m1, m2].length ∧
      (∀ m : Message, renderMessage f m =
        "[" ++ f m.timestamp ++ "] "
          ++ (if m.role = Role.user then "USER" else "NANO BANANA") ++ ":\n"
          ++ String.join (m.content.map renderPart) ++ "\n") ∧
      (∀ t : String, t ≠ "" → renderPart (MsgPart.textPart t) = t ++ "\n") ∧
      (∀ i : String, i ≠ "" →
        renderPart (MsgPart.imagePart i) = "[Generated Image Attached]\n")) :=
  ⟨by decide, c9_export_transcript "D" _ _ (by decide)⟩

/-- C7: In the history mapping, a text part maps to `{text}` (including the
    degenerate empty text, which falls through to the `{text: ''}` default,
    extensionally the same object), and an image part whose data-URI has
    the literal form `data:<mime>;base64,<data>` (with no separator
    characters inside `<mime>` and no comma inside `<data>`, as in any
    base64 data-URI) maps to `{inlineData: {data, mimeType}}` where
    `mimeType` is the MIME type declared by the URI and `data` is the base64
    payload with the URI header excluded. -/
theorem c7_part_mapping (t mime dat : String)
    (hm1 : ',' ∉ mime.data) (hm2 : ':' ∉ mime.data) (hm3 : ';' ∉ mime.data)
    (hd : ',' ∉ dat.data) :
    mapPart (MsgPart.textPart t) = some { text := some t, inlineData := none } ∧
    mapPart (MsgPart.imagePart ("data:" ++ mime ++ ";base64," ++ dat)) =
      some { text := none,
             inlineData := some { data := some dat, mimeType := mime } } := by
  constructor
  · by_cases ht : t = "" <;>
      simp [mapPart, MsgPart.textPart, strTruthy, ht]
  · have hdata : ("data:" ++ mime ++ ";base64," ++ dat).data
        = (("data:".data ++ mime.data ++ ";base64".data) ++ ',' :: dat.data) := by
      show "data:".data ++ mime.data ++ ";base64,".data ++ dat.data = _
      have : (";base64,".data : List Char) = ";base64".data ++ [','] := rfl
      rw [this]
      simp [List.append_assoc]
    have hne : ("data:" ++ mime ++ ";base64," ++ dat) ≠ "" := by
      intro h
      have : ("data:" ++ mime ++ ";base64," ++ dat).data = [] := by rw [h]
      rw [hdata] at this
      simp at this
    have hsplit1 : jsSplitChars ',' ("data:" ++ mime ++ ";base64," ++ dat).data
        = [("data:".data ++ mime.data ++ ";base64".data), dat.data] := by
      rw [hdata, jsSplitChars_append dat.data, jsSplitChars_of_not_mem hd]
      simp only [List.mem_append, not_or]
      exact ⟨⟨by decide, hm1⟩, by decide⟩
    have hsplit2 : jsSplitChars ':' ("data:".data ++ mime.data ++ ";base64".data)
        = [['d','a','t','a'], mime.data ++ ";base64".data] := by
      have hshape : ("data:".data ++ mime.data ++ ";base64".data : List Char)
          = ['d','a','t','a'] ++ ':' :: (mime.data ++ ";base64".data) := by
        simp [List.append_assoc]
      rw [hshape, jsSplitChars_append _ (by decide),
        jsSplitChars_of_not_mem]
      simp only [List.mem_append, not_or]
      exact ⟨hm2, by decide⟩
    have hsplit3 : jsSplitChars ';' (mime.data ++ ";base64".data)
        = mime.data :: jsSplitChars ';' "base64".data := by
      have hshape : (mime.data ++ ";base64".data : List Char)
          = mime.data ++ ';' :: "base64".data := rfl
      rw [hshape, jsSplitChars_append _ hm3]
    rw [mapPart]
    simp only [MsgPart.imagePart, strTruthy, Option.getD_some]
    rw [if_neg (by simp)]
    rw [if_pos (by simp [hne])]
    rw [hsplit1]
    simp only [List.headD_cons, hsplit2, List.get?_cons_succ, List.get?_cons_zero,
      Option.map_some, hsplit3]
    rfl

theorem updateMsg_stateAfterBot (userId botId : String) (ts : Nat)
    (s : AppState) (c : List MsgPart) (p : Bool)
    (hbid : botId ∉ s.messages.map Message.id) (huid : userId ≠ botId) :
    updateMsg (stateAfterBot userId botId ts s).messages botId c p
      = s.messages ++ [userMessageOf userId ts s,
          { id := botId, role := Role.agent, content := c, timestamp := ts,
            isPending := p }] := by
  show updateMsg ((s.messages ++ [userMessageOf userId ts s])
      ++ [botMessageOf botId ts]) botId c p = _
  rw [List.append_assoc]
  exact updateMsg_pair c p hbid (by simpa [userMessageOf] using huid) rfl

/-- C6: A forced-image submission (image mode on, no attachment) that
    succeeds first shows the templated acknowledgement — a fixed string
    containing the literal request text — on the still-pending agent turn
    (the snapshot at trace position 4, taken before the image call
    resolves), and finalizes the turn with the acknowledgement followed by
    the generated image and `isPending = false`. -/
theorem c6_forced_image_exchange (g : Gemini) (userId botId : String)
    (ts : Nat) (s : AppState) (url : String)
    (hacc : guardRejects s = false) (hforce : s.isImageMode = true)
    (himg : s.pendingImage = none)
    (hok : g.generateImage (jsTrim s.inputValue) = Except.ok url)
    (hbid : botId ∉ s.messages.map Message.id) (huid : userId ≠ botId) :
    (∃ a b : String, forcedAck (jsTrim s.inputValue)
        = a ++ jsTrim s.inputValue ++ b) ∧
    (handleSendMessage g userId botId ts s).trace.get? 4 = some
      { messages := s.messages ++
          [userMessageOf userId ts s,
           { id := botId, role := Role.agent,
             content := [MsgPart.textPart (forcedAck (jsTrim s.inputValue))],
             timestamp := ts, isPending := true }],
        inputValue := "", isTyping := true, isImageMode := false,
        isListening := s.isListening, pendingImage := none } ∧
    (finalState s (handleSendMessage g userId botId ts s)).messages
      = s.messages ++
        [userMessageOf userId ts s,
         { id := botId, role := Role.agent,
           content := [MsgPart.textPart (forcedAck (jsTrim s.inputValue)),
                       MsgPart.imagePart url],
           timestamp := ts, isPending := false }] := by
  have hreq : isImageRequest g s.pendingImage s.isImageMode
      (jsTrim s.inputValue) = true := by
    simp [isImageRequest, himg, hforce, strTruthy]
  have htry : tryExchange g botId (jsTrim s.inputValue) s.pendingImage
      s.isImageMode s.messages (stateAfterBot userId botId ts s)
      = ([setBotContent (stateAfterBot userId botId ts s) botId
            [MsgPart.textPart (forcedAck (jsTrim s.inputValue))] true,
          setBotContent (setBotContent (stateAfterBot userId botId ts s) botId
            [MsgPart.textPart (forcedAck (jsTrim s.inputValue))] true) botId
            [MsgPart.textPart (forcedAck (jsTrim s.inputValue)),
             MsgPart.imagePart url] false],
         [GeminiCall.genImage (jsTrim s.inputValue)],
         setBotContent (setBotContent (stateAfterBot userId botId ts s) botId
            [MsgPart.textPart (forcedAck (jsTrim s.inputValue))] true) botId
            [MsgPart.textPart (forcedAck (jsTrim s.inputValue)),
             MsgPart.imagePart url] false) := by
    rw [tryExchange]
    simp only [himg, hforce]
    simp [isImageRequest, strTruthy, afterAck, hok]
  refine ⟨⟨"Initiating Banana Vision... Crafting high-fidelity visualization for: \"",
      "\"", ?_⟩, ?_, ?_⟩
  · rw [forcedAck, String.append_assoc]
  · rw [handleSendMessage_accepted g userId botId ts s hacc, htry]
    show some _ = _
    rw [setBotContent, updateMsg_stateAfterBot userId botId ts s _ _ hbid huid]
    simp [stateAfterBot, stateTyping, stateAfterUser, resetState]
  · rw [finalState_accepted g userId botId ts s hacc, htry]
    show (setBotContent _ _ _ _).messages = _
    rw [setBotContent, setBotContent, updateMsg_stateAfterBot userId botId ts s _ _ hbid huid]
    show updateMsg _ _ _ _ = _
    rw [updateMsg_pair _ _ hbid (by simpa [userMessageOf] using huid) rfl]

/-- C6 witness: a concrete forced-image submission ("a cyberpunk city")
    run against stub capabilities. -/
theorem c6_witness :
    let s : AppState := { messages := [], inputValue := "a cyberpunk city",
                          isTyping := false, isImageMode := true,
                          isListening := false, pendingImage := none }
    let g := geminiStub false (Except.ok "T") (Except.ok "IMG")
    guardRejects s = false ∧ s.isImageMode = true ∧ s.pendingImage = none ∧
    g.generateImage (jsTrim s.inputValue) = Except.ok "IMG" ∧
    ("b" ∉ s.messages.map Message.id) ∧ "u" ≠ "b" ∧
    ((∃ a b : String, forcedAck (jsTrim s.inputValue)
        = a ++ jsTrim s.inputValue ++ b) ∧
    (handleSendMessage g "u" "b" 9 s).trace.get? 4 = some
      { messages := s.messages ++
          [userMessageOf "u" 9 s,
           { id := "b", role := Role.agent,
             content := [MsgPart.textPart (forcedAck (jsTrim s.inputValue))],
             timestamp := 9, isPending := true }],
        inputValue := "", isTyping := true, isImageMode := false,
        isListening := s.isListening, pendingImage := none } ∧
    (finalState s (handleSendMessage g "u" "b" 9 s)).messages
      = s.messages ++
        [userMessageOf "u" 9 s,
         { id := "b", role := Role.agent,
           content := [MsgPart.textPart (forcedAck (jsTrim s.inputValue)),
                       MsgPart.imagePart "IMG"],
           timestamp := 9, isPending := false }]) :=
  ⟨by decide, rfl, rfl, rfl, by decide, by decide,
    c6_forced_image_exchange (geminiStub false (Except.ok "T") (Except.ok "IMG"))
      "u" "b" 9 _ "IMG" (by decide) rfl rfl rfl (by decide) (by decide)⟩

theorem calls_on_text_path (g : Gemini) (userId botId : String) (ts : Nat)
    (s : AppState) (hist : List HistoryEntry)
    (hacc : guardRejects s = false)
    (hreq : submissionTakesImagePath g s = false)
    (hh : buildHistory s.messages = some hist) :
    (handleSendMessage g userId botId ts s).calls =
      (if strTruthy s.pendingImage then []
        else [GeminiCall.shouldGen (jsTrim s.inputValue)]) ++
      [GeminiCall.genText
        (if jsTrim s.inputValue = "" then defaultPrompt else jsTrim s.inputValue)
        (some hist) (jsOr s.pendingImage)] := by
  rw [handleSendMessage_accepted g userId botId ts s hacc]
  show (tryExchange g botId (jsTrim s.inputValue) s.pendingImage s.isImageMode
      s.messages (stateAfterBot userId botId ts s)).2.1 = _
  have hreq' : isImageRequest g s.pendingImage s.isImageMode
      (jsTrim s.inputValue) = false := hreq
  rw [tryExchange]
  simp only [hreq', Bool.false_eq_true, if_false, hh]
  cases himg : strTruthy s.pendingImage with
  | true =>
    simp only [himg, Bool.not_true, Bool.false_and, Bool.false_eq_true, if_false,
      List.nil_append, if_true]
    rcases hres : g.generateTextResponse
        (if jsTrim s.inputValue = "" then defaultPrompt else jsTrim s.inputValue)
        (some hist) (jsOr s.pendingImage) with e | v <;> simp [hres]
  | false =>
    have hor : (s.isImageMode || g.shouldGenerateImage (jsTrim s.inputValue)) = false := by
      simpa [isImageRequest, himg] using hreq'
    have hforce : s.isImageMode = false := (Bool.or_eq_false_iff.mp hor).1
    simp only [himg, hforce, Bool.not_false, Bool.true_and, if_true,
      Bool.false_eq_true, if_false]
    rcases hres : g.generateTextResponse
        (if jsTrim s.inputValue = "" then defaultPrompt else jsTrim s.inputValue)
        (some hist) (jsOr s.pendingImage) with e | v <;> simp [hres]

/-- C8: On every text-path submission whose history mapping succeeds, the
    only text-generation call is made with the trimmed user text as prompt
    — or the fixed default prompt when the trimmed text
    is empty — together with the bounded history and the attached image
    when present (a truthy attachment is passed through, a missing one
    becomes `undefined`); the only other call is the heuristic check, made
    exactly when no image is attached. -/
theorem c8_text_path_call (g : Gemini) (userId botId : String) (ts : Nat)
    (s : AppState) (hist : List HistoryEntry)
    (hacc : guardRejects s = false)
    (hreq : submissionTakesImagePath g s = false)
    (hh : buildHistory s.messages = some hist) :
    (handleSendMessage g userId botId ts s).calls =
      (if strTruthy s.pendingImage then []
        else [GeminiCall.shouldGen (jsTrim s.inputValue)]) ++
      [GeminiCall.genText
        (if jsTrim s.inputValue = "" then defaultPrompt else jsTrim s.inputValue)
        (some hist) (jsOr s.pendingImage)] :=
  calls_on_text_path g userId botId ts s hist hacc hreq hh

/-- C2: On every text-path submission whose history mapping succeeds, the
    history handed to the text-generation call is exactly the most recent
    `min 6 N` of the `N` turns that existed before the in-flight pair was
    appended, in original order (the pointwise images under the turn
    mapping), and every turn is mapped to role `"user"` for user turns and
    `"model"` for agent turns. -/
theorem c2_history_window (g : Gemini) (userId botId : String) (ts : Nat)
    (s : AppState) (hist : List HistoryEntry)
    (hacc : guardRejects s = false)
    (hreq : submissionTakesImagePath g s = false)
    (hh : buildHistory s.messages = some hist) :
    (∃ P A, GeminiCall.genText P (some hist) A
        ∈ (handleSendMessage g userId botId ts s).calls) ∧
    mapOption mapMessage (s.messages.drop (s.messages.length - 6)) = some hist ∧
    hist.length = min 6 s.messages.length ∧
    (∀ (i : Nat) (h1 : i < (s.messages.drop (s.messages.length - 6)).length)
        (h2 : i < hist.length),
      mapMessage ((s.messages.drop (s.messages.length - 6)).get ⟨i, h1⟩)
        = some (hist.get ⟨i, h2⟩)) ∧
    (∀ (m : Message) (e : HistoryEntry), mapMessage m = some e →
      e.role = if m.role = Role.user then "user" else "model") := by
  have hmap : mapOption mapMessage (s.messages.drop (s.messages.length - 6))
      = some hist := hh
  refine ⟨?_, hmap, ?_, ?_, ?_⟩
  · refine ⟨if jsTrim s.inputValue = "" then defaultPrompt else jsTrim s.inputValue,
      jsOr s.pendingImage, ?_⟩
    rw [calls_on_text_path g userId botId ts s hist hacc hreq hh]
    simp
  · have h1 := mapOption_length hmap
    have h2 : (s.messages.drop (s.messages.length - 6)).length
        = s.messages.length - (s.messages.length - 6) := List.length_drop _ _
    omega
  · exact fun i h1 h2 => mapOption_get hmap i h1 h2
  · intro m e h
    rw [mapMessage] at h
    cases hp : mapOption mapPart m.content with
    | none => rw [hp] at h; simp at h
    | some parts =>
      rw [hp] at h
      simp only [Option.some_inj] at h
      rw [← h]

theorem applyCatch_stateAfterBot_messages (userId botId : String) (ts : Nat)
    (s : AppState) (hbid : botId ∉ s.messages.map Message.id)
    (huid : userId ≠ botId) :
    (applyCatch (stateAfterBot userId botId ts s) botId).messages
      = s.messages ++ [userMessageOf userId ts s,
          { id := botId, role := Role.agent,
            content := [MsgPart.textPart failureMessage], timestamp := ts,
            isPending := false }] := by
  show updateMsg (stateAfterBot userId botId ts s).messages botId
    [MsgPart.textPart failureMessage] false = _
  rw [updateMsg_stateAfterBot userId botId ts s _ _ hbid huid]

theorem applyCatch_after_ack_messages (userId botId : String) (ts : Nat)
    (s : AppState) (ack : String) (hbid : botId ∉ s.messages.map Message.id)
    (huid : userId ≠ botId) :
    (applyCatch (setBotContent (stateAfterBot userId botId ts s) botId
        [MsgPart.textPart ack] true) botId).messages
      = s.messages ++ [userMessageOf userId ts s,
          { id := botId, role := Role.agent,
            content := [MsgPart.textPart failureMessage], timestamp := ts,
            isPending := false }] := by
  show updateMsg (updateMsg (stateAfterBot userId botId ts s).messages botId
      [MsgPart.textPart ack] true) botId [MsgPart.textPart failureMessage] false = _
  rw [updateMsg_stateAfterBot userId botId ts s _ _ hbid huid]
  rw [updateMsg_pair _ _ hbid (by simpa [userMessageOf] using huid) rfl]

/-- C3: On every accepted submission (with fresh turn ids) the orchestrator
    ends with `isTyping = false`, success or failure; and whenever an
    awaited capability call rejects — the image call or the heuristic-path
    acknowledgement call on the image path, or the text call on the text
    path — the exchange ends with both appended turns still in the list,
    the prior turns untouched, and the content of the agent turn exactly
    `[{text: "The generation failed. Please refine your prompt and try
    again."}]` with `isPending = false`. -/
theorem c3_failure_terminal (g : Gemini) (userId botId : String) (ts : Nat)
    (s : AppState) (hacc : guardRejects s = false)
    (hbid : botId ∉ s.messages.map Message.id) (huid : userId ≠ botId) :
    (finalState s (handleSendMessage g userId botId ts s)).isTyping = false ∧
    (((submissionTakesImagePath g s = true ∧
        ((∃ e, g.generateImage (jsTrim s.inputValue) = Except.error e) ∨
          (s.isImageMode = false ∧
            ∃ e, g.generateTextResponse (ackPrompt (jsTrim s.inputValue))
              none none = Except.error e))) ∨
      (submissionTakesImagePath g s = false ∧
        ∃ hist, buildHistory s.messages = some hist ∧
          ∃ e, g.generateTextResponse
            (if jsTrim s.inputValue = "" then defaultPrompt else jsTrim s.inputValue)
            (some hist) (jsOr s.pendingImage) = Except.error e)) →
      (finalState s (handleSendMessage g userId botId ts s)).messages
        = s.messages ++ [userMessageOf userId ts s,
            { id := botId, role := Role.agent,
              content := [MsgPart.textPart failureMessage], timestamp := ts,
              isPending := false }]) := by
  rw [finalState_accepted g userId botId ts s hacc]
  constructor
  · rfl
  · intro hfail
    show (tryExchange g botId (jsTrim s.inputValue) s.pendingImage s.isImageMode
      s.messages (stateAfterBot userId botId ts s)).2.2.messages = _
    rcases hfail with ⟨hreqT, hfailImg⟩ | ⟨hreqF, hist, hh, e, herr⟩
    · have hreq : isImageRequest g s.pendingImage s.isImageMode
          (jsTrim s.inputValue) = true := hreqT
      rw [tryExchange]
      simp only [hreq, if_true]
      rcases hfailImg with ⟨e, he⟩ | ⟨hforceF, e, hack⟩
      · cases hforce : s.isImageMode with
        | true =>
          simp only [if_true, afterAck, he]
          exact applyCatch_after_ack_messages userId botId ts s _ hbid huid
        | false =>
          simp only [Bool.false_eq_true, if_false]
          rcases hackr : g.generateTextResponse (ackPrompt (jsTrim s.inputValue))
              none none with e2 | c
          · simp only [hackr]
            exact applyCatch_stateAfterBot_messages userId botId ts s hbid huid
          · simp only [hackr, afterAck, he]
            exact applyCatch_after_ack_messages userId botId ts s _ hbid huid
      · simp only [hforceF, Bool.false_eq_true, if_false, hack]
        exact applyCatch_stateAfterBot_messages userId botId ts s hbid huid
    · have hreq : isImageRequest g s.pendingImage s.isImageMode
          (jsTrim s.inputValue) = false := hreqF
      rw [tryExchange]
      simp only [hreq, Bool.false_eq_true, if_false, hh, herr]
      exact applyCatch_stateAfterBot_messages userId botId ts s hbid huid

/-- C3 witness: a concrete forced-image submission whose image call
    rejects ends idle with the fixed failure message on the agent turn. -/
theorem c3_witness :
    let s : AppState := { messages := [], inputValue := "a dog",
                          isTyping := false, isImageMode := true,
                          isListening := false, pendingImage := none }
    let g := geminiStub false (Except.ok "T") (Except.error "boom")
    guardRejects s = false ∧ ("b" ∉ s.messages.map Message.id) ∧ "u" ≠ "b" ∧
    submissionTakesImagePath g s = true ∧
    g.generateImage (jsTrim s.inputValue) = Except.error "boom" ∧
    (finalState s (handleSendMessage g "u" "b" 1 s)).isTyping = false ∧
    (finalState s (handleSendMessage g "u" "b" 1 s)).messages
      = s.messages ++ [userMessageOf "u" 1 s,
          { id := "b", role := Role.agent,
            content := [MsgPart.textPart failureMessage], timestamp := 1,
            isPending := false }] :=
  ⟨by decide, by decide, by decide, by decide, rfl,
    (c3_failure_terminal (geminiStub false (Except.ok "T") (Except.error "boom"))
      "u" "b" 1 _ (by decide) (by decide) (by decide)).1,
    (c3_failure_terminal (geminiStub false (Except.ok "T") (Except.error "boom"))
      "u" "b" 1 _ (by decide) (by decide) (by decide)).2
      (Or.inl ⟨by decide, Or.inl ⟨"boom", rfl⟩⟩)⟩

/-- C7 witness: the mapping evaluated on a concrete text part and a
    concrete PNG data-URI. -/
theorem c7_witness :
    (',' ∉ "image/png".data) ∧ (':' ∉ "image/png".data) ∧
    (';' ∉ "image/png".data) ∧ (',' ∉ "AAAA".data) ∧
    (mapPart (MsgPart.textPart "hello")
        = some { text := some "hello", inlineData := none } ∧
      mapPart (MsgPart.imagePart ("data:" ++ "image/png" ++ ";base64," ++ "AAAA"))
        = some { text := none,
                 inlineData := some { data := some "AAAA", mimeType := "image/png" } }) :=
  ⟨by decide, by decide, by decide, by decide,
    c7_part_mapping "hello" "image/png" "AAAA" (by decide) (by decide)
      (by decide) (by decide)⟩

/-- C8 witness: an image-only submission (empty text, attachment present)
    calls text generation with the default prompt, the empty history and
    the attachment. -/
theorem c8_witness :
    let s : AppState := { messages := [], inputValue := "",
                          isTyping := false, isImageMode := true,
                          isListening := false,
                          pendingImage := some "data:image/png;base64,AA" }
    let g := geminiStub true (Except.ok "T") (Except.ok "I")
    guardRejects s = false ∧ submissionTakesImagePath g s = false ∧
    buildHistory s.messages = some [] ∧
    (handleSendMessage g "u" "b" 2 s).calls =
      (if strTruthy s.pendingImage then []
        else [GeminiCall.shouldGen (jsTrim s.inputValue)]) ++
      [GeminiCall.genText
        (if jsTrim s.inputValue = "" then defaultPrompt else jsTrim s.inputValue)
        (some []) (jsOr s.pendingImage)] :=
  ⟨by decide, by decide, rfl,
    c8_text_path_call (geminiStub true (Except.ok "T") (Except.ok "I"))
      "u" "b" 2 _ [] (by decide) (by decide) rfl⟩

/-- C2 witness: with 7 completed prior turns, the history is exactly the
    mapped images of the most recent 6, in order. -/
theorem c2_witness :
    let msgs : List Message := [wmsg 1 Role.user "a", wmsg 2 Role.agent "b",
      wmsg 3 Role.user "c", wmsg 4 Role.agent "d", wmsg 5 Role.user "e",
      wmsg 6 Role.agent "f", wmsg 7 Role.user "g"]
    let hist : List HistoryEntry := [wentry "model" "b", wentry "user" "c",
      wentry "model" "d", wentry "user" "e", wentry "model" "f",
      wentry "user" "g"]
    let s : AppState := { messages := msgs, inputValue := "hello",
                          isTyping := false, isImageMode := false,
                          isListening := false, pendingImage := none }
    let g := geminiStub false (Except.ok "T") (Except.ok "I")
    guardRejects s = false ∧ submissionTakesImagePath g s = false ∧
    buildHistory s.messages = some hist ∧
    ((∃ P A, GeminiCall.genText P (some hist) A
        ∈ (handleSendMessage g "u" "b" 8 s).calls) ∧
      mapOption mapMessage (s.messages.drop (s.messages.length - 6)) = some hist ∧
      hist.length = min 6 s.messages.length ∧
      (∀ (i : Nat) (h1 : i < (s.messages.drop (s.messages.length - 6)).length)
          (h2 : i < hist.length),
        mapMessage ((s.messages.drop (s.messages.length - 6)).get ⟨i, h1⟩)
          = some (hist.get ⟨i, h2⟩)) ∧
      (∀ (m : Message) (e : HistoryEntry), mapMessage m = some e →
        e.role = if m.role = Role.user then "user" else "model")) :=
  ⟨by decide, by decide, by decide,
    c2_history_window (geminiStub false (Except.ok "T") (Except.ok "I"))
      "u" "b" 8 _ _ (by decide) (by decide) (by decide)⟩
